import Mathlib

/-!
Verification of the kstack-lib configuration / secrets subsystem.

Shallow embedding of the Python sources:
  * `kstack_lib/types/layers.py`   — `KStackLayer` enum and its parsers
  * `kstack_lib/config/schemas.py` — `ProviderCredentials` validation
  * `kstack_lib/config/secrets.py` — vault secret loading / access control / env export
  * `kstack_lib/config/configmap.py` — active-route resolution
  * `kstack_lib/config/loaders.py` — template resolution, `get_cloud_provider`
  * `kstack_lib/local/security/vault.py` — vault encryption state, encrypt/decrypt

Python strings are Lean `String`s; `Optional[str]` is `Option String`;
Python truthiness of an optional string is `pyTruthy`; exceptions are
`Except`; the filesystem and the external commands (kubectl, partsecrets)
are passed in explicitly as data / outcome values.
-/

namespace KStackLib

instance {ε α : Type} [DecidableEq ε] [DecidableEq α] : DecidableEq (Except ε α) := fun x y =>
  match x, y with
  | .ok a, .ok b =>
    if h : a = b then isTrue (by rw [h]) else isFalse (by intro hc; cases hc; exact h rfl)
  | .error a, .error b =>
    if h : a = b then isTrue (by rw [h]) else isFalse (by intro hc; cases hc; exact h rfl)
  | .ok _, .error _ => isFalse (by intro hc; cases hc)
  | .error _, .ok _ => isFalse (by intro hc; cases hc)

instance {α : Type} (o : Option α) : Decidable (o = none) :=
  match o with
  | none => isTrue rfl
  | some _ => isFalse (by intro h; cases h)

/-- Python truthiness of an `Optional[str]`: `None` and `""` are falsy. -/
def pyTruthy : Option String → Bool
  | none => false
  | some s => s ≠ ""

/-- Python `str.strip()`: drop whitespace from both ends. -/
def pyStrip (s : String) : String :=
  String.mk (((s.toList.dropWhile Char.isWhitespace).reverse.dropWhile Char.isWhitespace).reverse)

/-- Python `str.lower()` (ASCII model). -/
def pyLower (s : String) : String :=
  String.mk (s.toList.map Char.toLower)

/-- Python `str.upper()` (ASCII model). -/
def pyUpper (s : String) : String :=
  String.mk (s.toList.map Char.toUpper)

/-- Python `str.isdigit()` (ASCII model): non-empty and all digits. -/
def pyIsDigit (s : String) : Bool :=
  s.toList ≠ [] && s.toList.all Char.isDigit

/-- Python `int(s)` on a digit string. -/
def pyToNat (s : String) : Nat :=
  s.toList.foldl (fun acc c => acc * 10 + (c.toNat - 48)) 0

/-- Python `str.split(sep)` for a one-character separator: every separator
occurrence cuts, so `""` gives `[""]` and `"a..b"` gives `["a", "", "b"]`. -/
def splitOnChar (sep : Char) : List Char → List (List Char)
  | [] => [[]]
  | c :: rest =>
    match splitOnChar sep rest with
    | [] => [[]]
    | g :: gs => if c = sep then [] :: g :: gs else (c :: g) :: gs

/-- Python `str.replace(pat, repl)` (all non-overlapping occurrences, left to
right), with a fuel argument for structural recursion; each step consumes at
least one character, so `fuel ≥ length` always suffices.  The empty-pattern
case never arises at the call sites (the pattern is a doubled-brace
placeholder). -/
def pyReplaceAllFuel (pat repl : List Char) : Nat → List Char → List Char
  | _, [] => []
  | 0, s => s
  | fuel + 1, c :: rest =>
    if pat.isPrefixOf (c :: rest) ∧ pat ≠ [] then
      repl ++ pyReplaceAllFuel pat repl fuel ((c :: rest).drop pat.length)
    else c :: pyReplaceAllFuel pat repl fuel rest

/-- Python `s.replace(pat, repl)`. -/
def pyReplaceAll (s pat repl : String) : String :=
  String.mk (pyReplaceAllFuel pat.toList repl.toList s.toList.length s.toList)

/-! ## `kstack_lib/types/layers.py` -/

/-- The `KStackLayer` enum (four fixed members). -/
inductive KStackLayer
  | LAYER_0_APPLICATIONS
  | LAYER_1_TENANT_INFRA
  | LAYER_2_GLOBAL_SERVICES
  | LAYER_3_GLOBAL_INFRA
  deriving DecidableEq, Repr

/-- Enum `value` (also the Kubernetes namespace, see `KStackLayer.namespace`). -/
def KStackLayer.value : KStackLayer → String
  | .LAYER_0_APPLICATIONS => "layer-0-applications"
  | .LAYER_1_TENANT_INFRA => "layer-1-tenant-infra"
  | .LAYER_2_GLOBAL_SERVICES => "layer-2-global-services"
  | .LAYER_3_GLOBAL_INFRA => "layer-3-global-infra"

/-- Property `KStackLayer.namespace`: returns the enum value. -/
def KStackLayer.namespaceName (l : KStackLayer) : String := l.value

/-- Property `KStackLayer.number`. -/
def KStackLayer.number : KStackLayer → Nat
  | .LAYER_0_APPLICATIONS => 0
  | .LAYER_1_TENANT_INFRA => 1
  | .LAYER_2_GLOBAL_SERVICES => 2
  | .LAYER_3_GLOBAL_INFRA => 3

/-- The members in enum declaration order (Python `for layer in cls`). -/
def KStackLayer.members : List KStackLayer :=
  [.LAYER_0_APPLICATIONS, .LAYER_1_TENANT_INFRA, .LAYER_2_GLOBAL_SERVICES, .LAYER_3_GLOBAL_INFRA]

/-- Method `KStackLayer.from_number`: first member whose `number` matches, else
a `ValueError` naming the invalid number.  Raised errors are modelled as
`Except.error` carrying the message string. -/
def KStackLayer.from_number (num : Nat) : Except String KStackLayer :=
  match KStackLayer.members.find? (fun l => l.number = num) with
  | some l => .ok l
  | none => .error ("Invalid layer number: " ++ toString num)

/-- A single-quote character, kept out of string literals as `Char.ofNat 39`. -/
def sq : String := String.singleton (Char.ofNat 39)

/-- The final `ValueError` message of `from_string` (lists the valid values). -/
def invalidLayerMessage (value : String) : String :=
  "Invalid layer: " ++ sq ++ value ++ sq ++ ". " ++
    "Use: layer0, layer1, layer2, layer3 (or full names: layer-0-applications, etc.)"

/-- The body of `from_string` once `value_lower = value.lower().strip()` has
been computed: try the short aliases, then digit strings (Python
`str.isdigit` + `int`), then the full enum values, and otherwise raise a
`ValueError` listing the valid values (the message shows the original
`value`). -/
def KStackLayer.from_string_core (value value_lower : String) : Except String KStackLayer :=
  if value_lower = "layer0" then .ok .LAYER_0_APPLICATIONS
  else if value_lower = "layer1" then .ok .LAYER_1_TENANT_INFRA
  else if value_lower = "layer2" then .ok .LAYER_2_GLOBAL_SERVICES
  else if value_lower = "layer3" then .ok .LAYER_3_GLOBAL_INFRA
  else if pyIsDigit value_lower then KStackLayer.from_number (pyToNat value_lower)
  else match KStackLayer.members.find? (fun l => l.value = value_lower) with
    | some l => .ok l
    | none => .error (invalidLayerMessage value)

/-- Method `KStackLayer.from_string`: lowercases and strips the input, then parses. -/
def KStackLayer.from_string (value : String) : Except String KStackLayer :=
  KStackLayer.from_string_core value (pyStrip (pyLower value))

/-- The valid strings enumerated by the claim, paired with the member each
one should parse to: digits `"0"`..`"3"`, short aliases, full canonical /
namespace names. -/
def validLayerPairs : List (String × KStackLayer) :=
  [("0", .LAYER_0_APPLICATIONS), ("1", .LAYER_1_TENANT_INFRA),
   ("2", .LAYER_2_GLOBAL_SERVICES), ("3", .LAYER_3_GLOBAL_INFRA),
   ("layer0", .LAYER_0_APPLICATIONS), ("layer1", .LAYER_1_TENANT_INFRA),
   ("layer2", .LAYER_2_GLOBAL_SERVICES), ("layer3", .LAYER_3_GLOBAL_INFRA),
   ("layer-0-applications", .LAYER_0_APPLICATIONS),
   ("layer-1-tenant-infra", .LAYER_1_TENANT_INFRA),
   ("layer-2-global-services", .LAYER_2_GLOBAL_SERVICES),
   ("layer-3-global-infra", .LAYER_3_GLOBAL_INFRA)]

/-! ## `kstack_lib/config/schemas.py` — `ProviderCredentials` -/

/-- Schema `ProviderCredentials`: a bag of optional credential fields. -/
structure ProviderCredentials where
  aws_access_key_id : Option String := none
  aws_secret_access_key : Option String := none
  aws_session_token : Option String := none
  gcp_credentials_json : Option String := none
  gcp_project_id : Option String := none
  azure_subscription_id : Option String := none
  azure_tenant_id : Option String := none
  azure_client_id : Option String := none
  azure_client_secret : Option String := none
  deriving DecidableEq, Repr

/-- Validator `ProviderCredentials.validate_at_least_one_credential` — `true` when the
model validator accepts the instance.  Mirrors the Python truthiness checks:
`has_aws = aws_access_key_id or aws_secret_access_key`,
`has_gcp = gcp_credentials_json or gcp_project_id`,
`has_azure = any([azure_subscription_id, azure_client_id, azure_client_secret])`. -/
def ProviderCredentials.validate_at_least_one_credential (c : ProviderCredentials) : Bool :=
  let has_aws := pyTruthy c.aws_access_key_id || pyTruthy c.aws_secret_access_key
  let has_gcp := pyTruthy c.gcp_credentials_json || pyTruthy c.gcp_project_id
  let has_azure := pyTruthy c.azure_subscription_id || pyTruthy c.azure_client_id ||
    pyTruthy c.azure_client_secret
  has_aws || has_gcp || has_azure

/-! ## `kstack_lib/local/security/vault.py` — `KStackVault` -/

/-- A file in the vault environment directory tree: the directory path below
the environment root (`rglob` is recursive) and the file name. -/
structure VaultEntry where
  dir : List String
  name : String
  deriving DecidableEq, Repr

/-- Python `pathlib.PurePath.suffix` of a file name: the part from the last dot,
empty when there is no dot, the dot is leading, or the dot is trailing
(pathlib: `i = name.rfind(".")`; suffix is `name[i:]` iff `0 < i < len - 1`). -/
def pySuffix (name : String) : String :=
  let l := name.toList
  let revIdx := l.reverse.indexOf (Char.ofNat 46)
  if revIdx ≥ l.length then ""
  else
    let i := l.length - 1 - revIdx
    if 0 < i ∧ i < l.length - 1 then String.mk (l.drop i) else ""

/-- Python `name.replace("secret.", "", 1)`: remove the first occurrence of the
pattern (for `rglob("secret.*")` results the occurrence is the prefix). -/
def removeFirstOcc (pat : List Char) : List Char → List Char
  | [] => []
  | c :: rest =>
    if pat.isPrefixOf (c :: rest) then (c :: rest).drop pat.length
    else c :: removeFirstOcc pat rest

/-- The decrypted sibling name of an encrypted file name. -/
def decryptedName (name : String) : String :=
  String.mk (removeFirstOcc "secret.".toList name.toList)

/-- Does `name` match the glob pattern `secret.*` (fnmatch: literal prefix
`secret.` followed by anything, possibly empty)? -/
def matchesSecretGlob (name : String) : Bool :=
  "secret.".toList.isPrefixOf name.toList

/-- Metadata suffixes skipped by `is_encrypted` ({".cfg", ".conf", ".config"}). -/
def metadataSuffixes : List String := [".cfg", ".conf", ".config"]

/-- Does the vault tree hold a file with this directory and name? -/
def hasFile (fs : List VaultEntry) (dir : List String) (name : String) : Bool :=
  fs.any fun e => e.dir = dir ∧ e.name = name

/-- Is this entry an encrypted secret file that `is_encrypted` inspects
(matches `secret.*`, not a metadata suffix)? -/
def isInspectedSecret (e : VaultEntry) : Bool :=
  matchesSecretGlob e.name && !(metadataSuffixes.contains (pySuffix e.name))

/-- Method `KStackVault.is_encrypted`: true iff some `secret.*` file (metadata
suffixes excluded) lacks its decrypted sibling in the same directory. -/
def KStackVault.is_encrypted (fs : List VaultEntry) : Bool :=
  fs.any fun e => isInspectedSecret e && !hasFile fs e.dir (decryptedName e.name)

/-- Outcome of running the external `partsecrets` command via `run_command`:
either it returns normally or it raises (non-zero exit, timeout, missing
binary, ...). -/
inductive ToolOutcome
  | success
  | failure
  deriving DecidableEq, Repr

/-- Observable result of `decrypt` / `encrypt`: the returned boolean and
whether the external tool was invoked. -/
structure VaultCallResult where
  returnValue : Bool
  toolInvoked : Bool
  deriving DecidableEq, Repr

/-- Method `KStackVault.decrypt`: returns `True` without running the tool when the
vault is already decrypted; otherwise runs `partsecrets reveal` and returns
`True` on success, `False` when the command raises. -/
def KStackVault.decrypt (fs : List VaultEntry) (tool : ToolOutcome) : VaultCallResult :=
  if !KStackVault.is_encrypted fs then ⟨true, false⟩
  else match tool with
    | .success => ⟨true, true⟩
    | .failure => ⟨false, true⟩

/-- Method `KStackVault.encrypt`: always runs `partsecrets hide` (no short-circuit in
the source) and returns `True` on success, `False` when the command raises. -/
def KStackVault.encrypt (_fs : List VaultEntry) (tool : ToolOutcome) : VaultCallResult :=
  match tool with
  | .success => ⟨true, true⟩
  | .failure => ⟨false, true⟩

/-! ## `kstack_lib/config/configmap.py` — `ConfigMap.get_active_route` -/

/-- Outcome of the `kubectl get configmap kstack-route ...` subprocess:
either it exits 0 with some stdout, or it raises
(`CalledProcessError` / `TimeoutExpired` / `FileNotFoundError`). -/
inductive KubectlOutcome
  | ok (stdout : String)
  | err
  deriving DecidableEq, Repr

/-- Observable result of `get_active_route`: the returned route and whether
the kubectl ConfigMap query was issued. -/
structure RouteResult where
  route : String
  kubectlQueried : Bool
  deriving DecidableEq, Repr

/-- Method `ConfigMap.get_active_route`: (1) the `KSTACK_ROUTE` env var if truthy,
(2) the stripped kubectl query result if the command succeeds and the result
is non-empty, (3) `"development"`.  Query failures are swallowed. -/
def ConfigMap.get_active_route (envRoute : Option String) (kubectl : KubectlOutcome) :
    RouteResult :=
  if pyTruthy envRoute then ⟨envRoute.getD "", false⟩
  else
    match kubectl with
    | .ok stdout =>
      let route := pyStrip stdout
      if route ≠ "" then ⟨route, true⟩ else ⟨"development", true⟩
    | .err => ⟨"development", true⟩

/-! ## `kstack_lib/config/secrets.py` — env var export -/

/-- The process environment, `os.environ`, as a partial map. -/
def OsEnviron : Type := String → Option String

/-- Assignment `os.environ[name] = value`. -/
def OsEnviron.set (e : OsEnviron) (name value : String) : OsEnviron :=
  fun n => if n = name then some value else e n

/-- Method `SecretsProvider._convert_key_to_env_var`:
`key.replace("-", "_").upper()`. -/
def convert_key_to_env_var (key : String) : String :=
  pyUpper (pyReplaceAll key "-" "_")

/-- Method `SecretsProvider.export_as_env_vars`: for each secret in order, convert
the key and set the env var unless `override_existing` is false and the
variable already exists. -/
def export_as_env_vars (secrets : List (String × String)) (override_existing : Bool)
    (e : OsEnviron) : OsEnviron :=
  match secrets with
  | [] => e
  | (key, value) :: rest =>
    let env_var_name := convert_key_to_env_var key
    let e1 := if !override_existing && (e env_var_name).isSome then e
              else e.set env_var_name value
    export_as_env_vars rest override_existing e1

/-! ## `kstack_lib/config/secrets.py` — vault loading and access control -/

/-- A YAML scalar or list value as it appears in a parsed vault file.
Scalars are carried as the string `str(value)` yields (the loader applies
`str` to every stored value); `shared_with` values are lists of strings. -/
inductive YVal
  | str (s : String)
  | strList (l : List String)
  deriving DecidableEq, Repr

/-- Naive substring search over character lists (Python `x in s` on strings). -/
def listIsSubstrOf (pat : List Char) : List Char → Bool
  | [] => pat.isEmpty
  | c :: rest => pat.isPrefixOf (c :: rest) || listIsSubstrOf pat rest

/-- Python `repr` of a string list, e.g. `["a", "b"]` renders with single
quotes and comma-space separators. -/
def pyReprStrList (l : List String) : String :=
  "[" ++ String.intercalate ", " (l.map fun s => sq ++ s ++ sq) ++ "]"

/-- Python `str(value)` on a vault value. -/
def YVal.pyStr : YVal → String
  | .str s => s
  | .strList l => pyReprStrList l

/-- Python `x in v`: list membership for a list value, substring test for a
string value. -/
def YVal.pyContains (v : YVal) (x : String) : Bool :=
  match v with
  | .str s => listIsSubstrOf x.toList s.toList
  | .strList l => l.contains x

/-- A parsed vault YAML file: its key/value mapping (keys unique, in file
order). -/
structure VaultFile where
  data : List (String × YVal)
  deriving DecidableEq, Repr

/-- The `{vault_dir}/{environment}` directory: the layer subdirectories that
exist, keyed by name, each with its `*.yaml` files in glob order.  A layer
name absent from the list is a missing directory. -/
structure EnvVaultDir where
  layers : List (String × List VaultFile)
  deriving DecidableEq, Repr

/-- The five reserved metadata keys skipped by `load_secrets_from_vault`. -/
def reservedMetadataKeys : List String :=
  ["shared_with", "description", "created", "status", "migration"]

/-- The fixed iteration order of layer directories. -/
def layerDirNames : List String := ["layer0", "layer1", "layer2", "layer3"]

/-- Method `SecretsProvider._can_access_secret`: same layer always allowed,
otherwise the requesting layer must be in the file-level `shared_with`
value (`vault_data.get("shared_with", [])`; absent means the empty list). -/
def can_access_secret (source_layer target_layer : String)
    (vault_data : List (String × YVal)) : Bool :=
  if source_layer = target_layer then true
  else
    match vault_data.lookup "shared_with" with
    | none => false
    | some v => v.pyContains source_layer

/-- Assignment `secrets[key] = value` on a Python dict kept as an insertion-ordered
association list: update in place when the key exists, else append. -/
def dictSet (d : List (String × String)) (key value : String) : List (String × String) :=
  if d.any (fun kv => kv.1 = key) then
    d.map fun kv => if kv.1 = key then (key, value) else kv
  else d ++ [(key, value)]

/-- The inner loop of `load_secrets_from_vault` over one file: add every
non-metadata key with its value coerced to string. -/
def addFileData (secrets : List (String × String)) :
    List (String × YVal) → List (String × String)
  | [] => secrets
  | (key, value) :: rest =>
    addFileData
      (if reservedMetadataKeys.contains key then secrets
       else dictSet secrets key value.pyStr) rest

/-- The loop over one layer directory: each file contributes its data iff
`_can_access_secret` grants the requesting layer access. -/
def addLayerFiles (layer layer_dir : String) (secrets : List (String × String)) :
    List VaultFile → List (String × String)
  | [] => secrets
  | f :: rest =>
    addLayerFiles layer layer_dir
      (if can_access_secret layer layer_dir f.data then addFileData secrets f.data
       else secrets) rest

/-- The loop over the four fixed layer directory names: directories that do
not exist are skipped. -/
def addLayers (layer : String) (d : EnvVaultDir) (secrets : List (String × String)) :
    List String → List (String × String)
  | [] => secrets
  | layer_dir :: rest =>
    addLayers layer d
      (match d.layers.lookup layer_dir with
       | none => secrets
       | some files => addLayerFiles layer layer_dir secrets files) rest

/-- Method `SecretsProvider.load_secrets_from_vault`: empty when the environment
vault directory does not exist, else the merge of all accessible files of
the four layer directories. -/
def load_secrets_from_vault (layer : String) (envDir : Option EnvVaultDir) :
    List (String × String) :=
  match envDir with
  | none => []
  | some d => addLayers layer d [] layerDirNames

/-- Does the result dict hold this key? -/
def containsKey (d : List (String × String)) (key : String) : Bool :=
  d.any fun kv => kv.1 = key

/-- Well-formedness of the `shared_with` value of a vault file: absent, or a list
of strings (the shape the specification describes). -/
def sharedWithWellFormed (data : List (String × YVal)) : Bool :=
  match data.lookup "shared_with" with
  | none => true
  | some (.strList _) => true
  | some (.str _) => false

/-! ## `kstack_lib/config/loaders.py` — `_resolve_template_variables` -/

/-- The literal left-brace character (kept out of literals). -/
def openBr : Char := Char.ofNat 123

/-- The literal right-brace character. -/
def closeBr : Char := Char.ofNat 125

/-- The scan of `re.findall(r"\x7b\x7b([^\x7d]+)\x7d\x7d", value)`, with a
fuel argument for structural recursion.  At each position: two left braces,
one or more non-right-brace characters (greedy, so up to the first right
brace), and two right braces form a match, after which the scan resumes past
the match; otherwise the scan advances one character.  Every recursive call
consumes at most as many characters as one fuel unit, so with
`fuel ≥ length` the out-of-fuel case is never reached. -/
def findTemplateVarsFuel : Nat → List Char → List (List Char)
  | _, [] => []
  | 0, _ :: _ => []
  | fuel + 1, c :: rest =>
    if c = openBr ∧ rest.head? = some openBr then
      let inner := rest.tail
      let content := inner.takeWhile (fun x => x ≠ closeBr)
      let after := inner.dropWhile (fun x => x ≠ closeBr)
      if content ≠ [] ∧ after.take 2 = [closeBr, closeBr] then
        content :: findTemplateVarsFuel fuel (after.drop 2)
      else findTemplateVarsFuel fuel rest
    else findTemplateVarsFuel fuel rest

/-- Python `re.findall` of the template pattern over a character list. -/
def findTemplateVars (l : List Char) : List (List Char) :=
  findTemplateVarsFuel l.length l

/-- A value reachable inside the template context mapping: a scalar
(carried as the string `str` would produce) or a nested mapping. -/
inductive CtxVal
  | str (s : String)
  | dict (es : List (String × CtxVal))

/-- Python `repr` of a context value (single-quoted strings,
brace-delimited dicts). -/
def CtxVal.pyRepr : CtxVal → String
  | .str s => sq ++ s ++ sq
  | .dict es =>
    "\x7b" ++
      String.intercalate ", "
        (es.attach.map fun kv => sq ++ kv.1.1 ++ sq ++ ": " ++ kv.1.2.pyRepr) ++
      "\x7d"
  decreasing_by
    have h : sizeOf kv.1.2 < sizeOf es := by
      calc sizeOf kv.1.2 < sizeOf kv.1 := by cases kv.1; simp_arith
        _ ≤ sizeOf es := List.sizeOf_lt_of_mem kv.2 |>.le
    simp_arith
    omega

/-- Python `str` of a context value (scalars render as themselves, mappings
as their `repr`). -/
def CtxVal.pyStr : CtxVal → String
  | .str s => s
  | .dict es => CtxVal.pyRepr (.dict es)

/-- Walking the context: `current = current[part]` for each path segment;
`none` models the `KeyError` (missing key) / `TypeError` (indexing a
non-mapping) that the resolver catches. -/
def CtxVal.lookupPath : CtxVal → List String → Option CtxVal
  | v, [] => some v
  | .str _, _ :: _ => none
  | .dict es, p :: rest =>
    match es.lookup p with
    | none => none
    | some v => CtxVal.lookupPath v rest

/-- The `ConfigurationError` message raised for an unresolved template
variable: names the path and the available top-level context keys. -/
def templateVarNotFoundMessage (var_path : String) (context : List (String × CtxVal)) :
    String :=
  "Template variable " ++ sq ++ var_path ++ sq ++ " not found in context. " ++
    "Available: " ++ pyReprStrList (context.map Prod.fst)

/-- The substitution loop of `_resolve_template_variables`: for each match,
strip it, split it on dots, walk the context (raising on failure), and
replace every occurrence of the braced match in the working string. -/
def substMatches (context : List (String × CtxVal)) :
    List (List Char) → String → Except String String
  | [], result => .ok result
  | m :: rest, result =>
    let var_path := String.mk m
    let parts := (splitOnChar (Char.ofNat 46) (pyStrip var_path).toList).map String.mk
    match CtxVal.lookupPath (.dict context) parts with
    | none => .error (templateVarNotFoundMessage var_path context)
    | some current =>
      substMatches context rest
        (pyReplaceAll result (String.mk [openBr, openBr] ++ var_path ++ String.mk [closeBr, closeBr])
          current.pyStr)

/-- Function `_resolve_template_variables`: find all `(doubled-brace)` template
variables and substitute them; a string with no matches is returned as is
(the early `return value` coincides with running the loop on no matches). -/
def resolve_template_variables (value : String) (context : List (String × CtxVal)) :
    Except String String :=
  substMatches context (findTemplateVars value.toList) value

/-- The dotted-path segments of a raw match, as the resolver computes them:
strip, then split on dots. -/
def matchParts (m : List Char) : List String :=
  (splitOnChar (Char.ofNat 46) (pyStrip (String.mk m)).toList).map String.mk

/-! ## `kstack_lib/config/loaders.py` — `get_cloud_provider` -/

/-- A validated provider configuration file.  Only the name takes part in
the resolution logic under verification; the remaining validated fields do
not influence the control flow of `get_cloud_provider`. -/
structure ProviderConfig where
  name : String
  deriving DecidableEq, Repr

/-- Schema `EnvironmentConfig`: the fields of the environment YAML schema that
`get_cloud_provider` reads (`deployment_targets` maps a layer key to its
`LayerDeploymentTarget.provider` name). -/
structure EnvironmentConfig where
  environment : String
  deployment_targets : List (String × String)
  allow_provider_override : Bool
  deriving DecidableEq, Repr

/-- Message of the `ConfigurationError` raised when an override is requested
but `allow_provider_override` is false. -/
def overrideNotAllowedMessage (env : String) : String :=
  "Provider override not allowed in " ++ env ++ " environment. " ++
    "Set allow_provider_override: true in config/environments/" ++ env ++ ".yaml"

/-- Message when the layer has no deployment target in the environment. -/
def noDeploymentTargetMessage (layer_key env : String) : String :=
  "No deployment target configured for " ++ layer_key ++ " in " ++ env ++ " environment"

/-- Message of `load_provider_config` when `{provider_name}.yaml` is absent. -/
def providerConfigNotFoundMessage (provider_name : String) : String :=
  "Provider configuration not found: " ++ provider_name ++ ".yaml"

/-- Message when the credentials mapping has no entry for the provider. -/
def noCredentialsMessage (provider_name : String) (available : List String) : String :=
  "No credentials found for provider " ++ sq ++ provider_name ++ sq ++ " in vault. " ++
    "Available: " ++ pyReprStrList available

/-- The tail of `get_cloud_provider` once the provider name is fixed: load
`{provider_name}.yaml` (modelled as a lookup among the loadable provider
configuration files), then look the name up in the vault credentials
mapping. -/
def resolveProvider (provider_name : String)
    (providerConfigs : List (String × ProviderConfig))
    (credsProviders : List (String × ProviderCredentials)) :
    Except String (ProviderConfig × ProviderCredentials) :=
  match providerConfigs.lookup provider_name with
  | none => .error (providerConfigNotFoundMessage provider_name)
  | some pc =>
    match credsProviders.lookup provider_name with
    | none => .error (noCredentialsMessage provider_name (credsProviders.map Prod.fst))
    | some creds => .ok (pc, creds)

/-- Function `get_cloud_provider` (with the environment configuration, provider
configuration directory and vault credentials already loaded and passed as
data): resolve the deployment target for `layer{N}`, apply the
`override_provider` gate (`if override_provider:` is Python truthiness), and
resolve the chosen provider. -/
def get_cloud_provider (env_config : EnvironmentConfig) (layerNumber : Nat)
    (override_provider : Option String)
    (providerConfigs : List (String × ProviderConfig))
    (credsProviders : List (String × ProviderCredentials)) :
    Except String (ProviderConfig × ProviderCredentials) :=
  let layer_key := "layer" ++ toString layerNumber
  match env_config.deployment_targets.lookup layer_key with
  | none => .error (noDeploymentTargetMessage layer_key env_config.environment)
  | some provider_name =>
    if pyTruthy override_provider then
      if !env_config.allow_provider_override then
        .error (overrideNotAllowedMessage env_config.environment)
      else resolveProvider (override_provider.getD "") providerConfigs credsProviders
    else resolveProvider provider_name providerConfigs credsProviders

/-! ## Theorems -/

/-- Claim C5, counterexample: a `ProviderCredentials` whose only non-empty
credential field is `aws_session_token` — a field of the AWS family listed by
the claim — fails validation, although the claim states that validation
succeeds whenever at least one credential field of any of the three families
is non-empty. -/
theorem C5_counterexample :
    pyTruthy ({ aws_session_token := some "token" } : ProviderCredentials).aws_session_token
      = true ∧
    ({ aws_session_token := some "token" } :
      ProviderCredentials).validate_at_least_one_credential = false := by
  decide

/-- Claim C5, amended: validation succeeds exactly when one of the seven
checked fields is non-empty — AWS access key or secret key, GCP credentials
JSON or project id, Azure subscription, client id or client secret;
`aws_session_token` and `azure_tenant_id` are not consulted, so an instance
whose only non-empty fields are those two fails validation. -/
theorem C5_amended :
    (∀ c : ProviderCredentials,
      c.validate_at_least_one_credential = true ↔
        (pyTruthy c.aws_access_key_id = true ∨ pyTruthy c.aws_secret_access_key = true ∨
         pyTruthy c.gcp_credentials_json = true ∨ pyTruthy c.gcp_project_id = true ∨
         pyTruthy c.azure_subscription_id = true ∨ pyTruthy c.azure_client_id = true ∨
         pyTruthy c.azure_client_secret = true)) ∧
    ({ aws_session_token := some "t", azure_tenant_id := some "u" } :
      ProviderCredentials).validate_at_least_one_credential = false := by
  constructor
  · intro c
    simp [ProviderCredentials.validate_at_least_one_credential, Bool.or_eq_true, or_assoc]
  · decide

/-- Claim C4, counterexample: on a vault that is already encrypted (its one
`secret.*` file has no decrypted sibling), `encrypt` still invokes the
external tool, and when the tool raises it returns `False` — the claim states
it would return `True` immediately without invoking the tool. -/
theorem C4_counterexample :
    KStackVault.is_encrypted [⟨[], "secret.yaml"⟩] = true ∧
    (KStackVault.encrypt [⟨[], "secret.yaml"⟩] .success).toolInvoked = true ∧
    KStackVault.encrypt [⟨[], "secret.yaml"⟩] .failure = ⟨false, true⟩ := by
  decide

/-- Claim C4, amended: `decrypt` short-circuits to `True` without invoking
the tool when the vault is already decrypted, and otherwise invokes the tool,
returning `True` on success and `False` on any exception; `encrypt` has no
already-encrypted short-circuit — it always invokes the tool — and likewise
returns `True` on success and `False` on any exception, never propagating
it. -/
theorem C4_amended (fs : List VaultEntry) (tool : ToolOutcome) :
    (KStackVault.is_encrypted fs = false →
      KStackVault.decrypt fs tool = ⟨true, false⟩) ∧
    (KStackVault.is_encrypted fs = true →
      KStackVault.decrypt fs .success = ⟨true, true⟩ ∧
      KStackVault.decrypt fs .failure = ⟨false, true⟩) ∧
    KStackVault.encrypt fs .success = ⟨true, true⟩ ∧
    KStackVault.encrypt fs .failure = ⟨false, true⟩ := by
  refine ⟨fun h => ?_, fun h => ⟨?_, ?_⟩, rfl, rfl⟩
  · cases tool <;> simp [KStackVault.decrypt, h]
  · simp [KStackVault.decrypt, h]
  · simp [KStackVault.decrypt, h]

/-- Witness for `C4_amended` at a concrete encrypted vault. -/
theorem C4_amended_witness :
    KStackVault.decrypt [⟨[], "secret.yaml"⟩] .failure = ⟨false, true⟩ ∧
    KStackVault.decrypt [⟨[], "secret.yaml"⟩, ⟨[], "yaml"⟩] .failure = ⟨true, false⟩ :=
  ⟨((C4_amended [⟨[], "secret.yaml"⟩] .failure).2.1 (by decide)).2,
   (C4_amended [⟨[], "secret.yaml"⟩, ⟨[], "yaml"⟩] .failure).1 (by decide)⟩

/-- Claim C2, counterexample: with `KSTACK_ROUTE` set to the empty string —
set, but falsy in Python — `get_active_route` neither returns the value of
the variable nor skips the external store: it queries kubectl and returns
the (stripped) answer of the store. -/
theorem C2_counterexample :
    ConfigMap.get_active_route (some "") (.ok "staging") = ⟨"staging", true⟩ := by
  decide

/-- Claim C2, amended: whenever `KSTACK_ROUTE` is set to a non-empty value,
`get_active_route` returns exactly that value and the external store is never
queried; whenever the variable is absent or empty and the external-store
query fails in any way, the result is exactly `"development"` (the embedding
is a total function: no exception escapes). -/
theorem C2_amended :
    (∀ (r : String) (k : KubectlOutcome), r ≠ "" →
      ConfigMap.get_active_route (some r) k = ⟨r, false⟩) ∧
    (∀ envRoute : Option String, pyTruthy envRoute = false →
      ConfigMap.get_active_route envRoute .err = ⟨"development", true⟩) := by
  constructor
  · intro r k h
    simp [ConfigMap.get_active_route, pyTruthy, h]
  · intro e h
    simp [ConfigMap.get_active_route, h]

/-- Witness for `C2_amended` at concrete inputs. -/
theorem C2_amended_witness :
    ConfigMap.get_active_route (some "staging") .err = ⟨"staging", false⟩ ∧
    ConfigMap.get_active_route none .err = ⟨"development", true⟩ :=
  ⟨C2_amended.1 "staging" .err (by decide), C2_amended.2 none (by decide)⟩

/-- Claim C7: `is_encrypted` returns `False` exactly when every file whose
name matches `secret.*` (metadata suffixes `.cfg`/`.conf`/`.config`
excluded) has a sibling file, in the same directory, named with the
`secret.` prefix removed; if any such file lacks its sibling it returns
`True`. -/
theorem C7_is_encrypted_iff (fs : List VaultEntry) :
    KStackVault.is_encrypted fs = false ↔
      ∀ e ∈ fs, isInspectedSecret e = true →
        hasFile fs e.dir (decryptedName e.name) = true := by
  rw [KStackVault.is_encrypted, List.any_eq_false]
  constructor
  · intro h e he hi
    have := h e he
    simp only [Bool.and_eq_true, Bool.not_eq_true', hi, true_and] at this
    simpa using this
  · intro h e he
    simp only [Bool.and_eq_true, Bool.not_eq_true', not_and]
    intro hi
    simp [h e he hi]

/-- Witness for `C7_is_encrypted_iff`: a vault whose single encrypted file
has its decrypted sibling reports `False`. -/
theorem C7_witness :
    KStackVault.is_encrypted [⟨[], "secret.redis.yaml"⟩, ⟨[], "redis.yaml"⟩] = false :=
  (C7_is_encrypted_iff _).mpr (by decide)

/-- Claim C6, counterexample: `"03"` is outside the claimed valid set (the
digit strings `"0"`..`"3"`, the short aliases and the full names), yet
`from_string` does not fail on it — every all-digit string is fed through
`int()`, so `"03"` parses to layer 3.  Moreover the digit string `"4"` fails
with `ValueError("Invalid layer number: 4")`, whose message does not list the
valid values. -/
theorem C6_counterexample :
    (validLayerPairs.all fun p => p.1 ≠ "03") = true ∧
    KStackLayer.from_string "03" = .ok .LAYER_3_GLOBAL_INFRA ∧
    KStackLayer.from_string "4" = .error "Invalid layer number: 4" := by
  decide

/-- Claim C6, amended: after case-folding and whitespace-trimming,
(1) every string in the claimed valid set parses to its layer;
(2) more generally every all-digit string whose numeric value is 0–3 (for
example `"03"`) parses to the layer of that number;
(3) all-digit strings of value ≥ 4 fail with a `ValueError` that names the
invalid number but does not list the valid values; and
(4) every remaining string fails with a `ValueError` listing the valid
values. -/
theorem C6_amended :
    (∀ (s : String) (l : KStackLayer),
      (pyStrip (pyLower s), l) ∈ validLayerPairs → KStackLayer.from_string s = .ok l) ∧
    (∀ s : String, pyIsDigit (pyStrip (pyLower s)) = true →
      (pyToNat (pyStrip (pyLower s)) ≤ 3 →
        ∃ l : KStackLayer, KStackLayer.from_string s = .ok l ∧
          l.number = pyToNat (pyStrip (pyLower s))) ∧
      (4 ≤ pyToNat (pyStrip (pyLower s)) →
        KStackLayer.from_string s =
          .error ("Invalid layer number: " ++ toString (pyToNat (pyStrip (pyLower s)))))) ∧
    (∀ s : String,
      (∀ p ∈ validLayerPairs, p.1 ≠ pyStrip (pyLower s)) →
      pyIsDigit (pyStrip (pyLower s)) = false →
      KStackLayer.from_string s = .error (invalidLayerMessage s)) := by
  refine ⟨?_, ?_, ?_⟩
  · intro s l h
    rw [KStackLayer.from_string]
    simp only [validLayerPairs, List.mem_cons, List.not_mem_nil, or_false,
      Prod.mk.injEq] at h
    rcases h with ⟨h1, h2⟩ | ⟨h1, h2⟩ | ⟨h1, h2⟩ | ⟨h1, h2⟩ | ⟨h1, h2⟩ | ⟨h1, h2⟩ |
      ⟨h1, h2⟩ | ⟨h1, h2⟩ | ⟨h1, h2⟩ | ⟨h1, h2⟩ | ⟨h1, h2⟩ | ⟨h1, h2⟩ <;>
      subst h2 <;> rw [h1] <;> rfl
  · intro s hd
    have hne : ∀ a : String, pyIsDigit a = false → ¬ pyStrip (pyLower s) = a := by
      intro a ha hc
      rw [hc] at hd
      rw [hd] at ha
      exact Bool.true_eq_false.mp ha
    have hchain : KStackLayer.from_string s =
        KStackLayer.from_number (pyToNat (pyStrip (pyLower s))) := by
      rw [KStackLayer.from_string, KStackLayer.from_string_core,
        if_neg (hne "layer0" (by decide)), if_neg (hne "layer1" (by decide)),
        if_neg (hne "layer2" (by decide)), if_neg (hne "layer3" (by decide)),
        if_pos hd]
    constructor
    · intro hle
      rw [hchain]
      set n := pyToNat (pyStrip (pyLower s)) with hn
      interval_cases n
      · exact ⟨.LAYER_0_APPLICATIONS, rfl, rfl⟩
      · exact ⟨.LAYER_1_TENANT_INFRA, rfl, rfl⟩
      · exact ⟨.LAYER_2_GLOBAL_SERVICES, rfl, rfl⟩
      · exact ⟨.LAYER_3_GLOBAL_INFRA, rfl, rfl⟩
    · intro hge
      rw [hchain, KStackLayer.from_number]
      have hfind : KStackLayer.members.find?
          (fun l => l.number = pyToNat (pyStrip (pyLower s))) = none := by
        rw [List.find?_eq_none]
        intro l hl
        simp only [decide_eq_true_eq]
        cases l <;> simp only [KStackLayer.number] <;> omega
      rw [hfind]
  · intro s hall hd
    have hne : ∀ (a : String) (l : KStackLayer), (a, l) ∈ validLayerPairs →
        ¬ pyStrip (pyLower s) = a := by
      intro a l hm hc
      exact hall (a, l) hm hc.symm
    rw [KStackLayer.from_string, KStackLayer.from_string_core,
      if_neg (hne "layer0" .LAYER_0_APPLICATIONS (by decide)),
      if_neg (hne "layer1" .LAYER_1_TENANT_INFRA (by decide)),
      if_neg (hne "layer2" .LAYER_2_GLOBAL_SERVICES (by decide)),
      if_neg (hne "layer3" .LAYER_3_GLOBAL_INFRA (by decide)),
      if_neg (by simp [hd])]
    have hfind : KStackLayer.members.find?
        (fun l => l.value = pyStrip (pyLower s)) = none := by
      rw [List.find?_eq_none]
      intro l hl
      simp only [decide_eq_true_eq]
      intro hc
      cases l
      · exact hne "layer-0-applications" .LAYER_0_APPLICATIONS (by decide) hc.symm
      · exact hne "layer-1-tenant-infra" .LAYER_1_TENANT_INFRA (by decide) hc.symm
      · exact hne "layer-2-global-services" .LAYER_2_GLOBAL_SERVICES (by decide) hc.symm
      · exact hne "layer-3-global-infra" .LAYER_3_GLOBAL_INFRA (by decide) hc.symm
    rw [hfind]

/-- Witness for `C6_amended` at concrete inputs: a case-folded, padded alias;
a leading-zero digit string; an out-of-range digit string; and an arbitrary
invalid string. -/
theorem C6_amended_witness :
    KStackLayer.from_string " LAYER2 " = .ok .LAYER_2_GLOBAL_SERVICES ∧
    (∃ l : KStackLayer, KStackLayer.from_string "003" = .ok l ∧
      l.number = pyToNat (pyStrip (pyLower "003"))) ∧
    KStackLayer.from_string "17" =
      .error ("Invalid layer number: " ++ toString (pyToNat (pyStrip (pyLower "17")))) ∧
    KStackLayer.from_string "bogus" = .error (invalidLayerMessage "bogus") :=
  ⟨C6_amended.1 " LAYER2 " .LAYER_2_GLOBAL_SERVICES (by decide),
   (C6_amended.2.1 "003" (by decide)).1 (by decide),
   (C6_amended.2.1 "17" (by decide)).2 (by decide),
   C6_amended.2.2 "bogus" (by decide) (by decide)⟩

/-- Claim C9: with `override_existing = False`, the environment after
`export_as_env_vars` maps every name that was already set to its original
value (vault values never clobber), and every name that was unset to the
value of the first secret whose converted key (uppercase, hyphens to
underscores) is that name — or to nothing when no secret converts to it, so
unrelated variables are not modified. -/
theorem C9_export_as_env_vars_characterization (secrets : List (String × String))
    (e : OsEnviron) (name : String) :
    export_as_env_vars secrets false e name =
      match e name with
      | some v => some v
      | none => (secrets.find? fun kv => convert_key_to_env_var kv.1 = name).map Prod.snd := by
  induction secrets generalizing e with
  | nil =>
    cases h : e name <;> simp [export_as_env_vars, h]
  | cons kv rest ih =>
    obtain ⟨k, v⟩ := kv
    by_cases hs : (e (convert_key_to_env_var k)).isSome = true
    · have hstep : export_as_env_vars ((k, v) :: rest) false e =
          export_as_env_vars rest false e := by
        rw [export_as_env_vars]
        simp [hs]
      rw [hstep, ih]
      by_cases hk : convert_key_to_env_var k = name
      · rw [← hk]
        obtain ⟨v0, hv0⟩ := Option.isSome_iff_exists.mp hs
        rw [hv0]
      · cases h : e name <;> simp [List.find?, hk]
    · have hstep : export_as_env_vars ((k, v) :: rest) false e =
          export_as_env_vars rest false (e.set (convert_key_to_env_var k) v) := by
        rw [export_as_env_vars]
        simp [hs]
      rw [hstep, ih]
      by_cases hk : convert_key_to_env_var k = name
      · have hen : e name = none := by
          rw [← hk]
          exact Option.not_isSome_iff_eq_none.mp (by simp [hs])
        have he1 : (OsEnviron.set e (convert_key_to_env_var k) v) name = some v := by
          show (if name = convert_key_to_env_var k then some v else e name) = some v
          rw [if_pos hk.symm]
        rw [he1, hen]
        simp [List.find?, hk]
      · have he1 : (OsEnviron.set e (convert_key_to_env_var k) v) name = e name := by
          show (if name = convert_key_to_env_var k then some v else e name) = e name
          rw [if_neg (fun hc => hk hc.symm)]
        rw [he1]
        cases h : e name <;> simp [List.find?, hk]

lemma isPrefixOf_append_extend (pat a b : List Char)
    (h : pat.isPrefixOf a = true) : pat.isPrefixOf (a ++ b) = true := by
  induction pat generalizing a with
  | nil => simp [List.isPrefixOf]
  | cons c cs ih =>
    cases a with
    | nil => exact absurd h (by simp [List.isPrefixOf])
    | cons x xs =>
      simp only [List.isPrefixOf, List.cons_append, Bool.and_eq_true] at h ⊢
      exact ⟨h.1, ih xs h.2⟩

lemma listIsSubstrOf_append_left (pat a b : List Char)
    (h : listIsSubstrOf pat a = true) : listIsSubstrOf pat (a ++ b) = true := by
  induction a with
  | nil =>
    simp only [listIsSubstrOf, List.isEmpty_iff] at h
    subst h
    cases b <;> simp [listIsSubstrOf]
  | cons c rest ih =>
    simp only [listIsSubstrOf, Bool.or_eq_true] at h ⊢
    rcases h with h | h
    · left
      exact isPrefixOf_append_extend pat (c :: rest) b h
    · right
      exact ih h

lemma listIsSubstrOf_append_right (pat a b : List Char)
    (h : listIsSubstrOf pat b = true) : listIsSubstrOf pat (a ++ b) = true := by
  induction a with
  | nil => simpa using h
  | cons c rest ih =>
    simp only [List.cons_append, listIsSubstrOf, Bool.or_eq_true]
    right
    exact ih

/-- Claim C8: whenever the deployment target for the layer exists,
`get_cloud_provider` called with a non-empty `override_provider` while the
flag `allow_provider_override` of the environment is `False` fails with a
`ConfigurationError` whose message mentions `allow_provider_override`,
regardless of the provider configurations and credentials on disk; and when
the flag is `True` the override name replaces the configured provider name
for the rest of the resolution. -/
theorem C8_override_gating (env_config : EnvironmentConfig) (layerNumber : Nat)
    (o : String) (providerConfigs : List (String × ProviderConfig))
    (credsProviders : List (String × ProviderCredentials)) (target : String)
    (htarget : env_config.deployment_targets.lookup ("layer" ++ toString layerNumber)
      = some target)
    (ho : o ≠ "") :
    (env_config.allow_provider_override = false →
      get_cloud_provider env_config layerNumber (some o) providerConfigs credsProviders =
        .error (overrideNotAllowedMessage env_config.environment) ∧
      listIsSubstrOf "allow_provider_override".toList
        (overrideNotAllowedMessage env_config.environment).toList = true) ∧
    (env_config.allow_provider_override = true →
      get_cloud_provider env_config layerNumber (some o) providerConfigs credsProviders =
        resolveProvider o providerConfigs credsProviders) := by
  have htr : pyTruthy (some o) = true := by
    simp [pyTruthy, ho]
  constructor
  · intro hflag
    constructor
    · rw [get_cloud_provider]
      simp only [htarget, htr, hflag, Bool.not_false, if_true]
    · rw [overrideNotAllowedMessage]
      apply listIsSubstrOf_append_left
      apply listIsSubstrOf_append_left
      apply listIsSubstrOf_append_right
      decide
  · intro hflag
    rw [get_cloud_provider]
    simp [htarget, htr, hflag]

/-- Witness for `C8_override_gating` at a concrete configuration. -/
theorem C8_witness :
    get_cloud_provider ⟨"dev", [("layer3", "localstack")], false⟩ 3 (some "aws-dev")
        [("aws-dev", ⟨"aws-dev"⟩)] [] =
      .error (overrideNotAllowedMessage "dev") ∧
    get_cloud_provider ⟨"dev", [("layer3", "localstack")], true⟩ 3 (some "aws-dev")
        [("aws-dev", ⟨"aws-dev"⟩)] [] =
      resolveProvider "aws-dev" [("aws-dev", ⟨"aws-dev"⟩)] [] :=
  ⟨((C8_override_gating ⟨"dev", [("layer3", "localstack")], false⟩ 3 "aws-dev"
      [("aws-dev", ⟨"aws-dev"⟩)] [] "localstack" (by decide) (by decide)).1 rfl).1,
   (C8_override_gating ⟨"dev", [("layer3", "localstack")], true⟩ 3 "aws-dev"
      [("aws-dev", ⟨"aws-dev"⟩)] [] "localstack" (by decide) (by decide)).2 rfl⟩

lemma substMatches_error_of_exists (context : List (String × CtxVal))
    (ms : List (List Char))
    (h : ∃ m ∈ ms, CtxVal.lookupPath (.dict context) (matchParts m) = none) :
    ∃ m ∈ ms, CtxVal.lookupPath (.dict context) (matchParts m) = none ∧
      ∀ res : String, substMatches context ms res =
        .error (templateVarNotFoundMessage (String.mk m) context) := by
  induction ms with
  | nil => simp at h
  | cons m0 rest ih =>
    by_cases h0 : CtxVal.lookupPath (.dict context) (matchParts m0) = none
    · refine ⟨m0, List.mem_cons_self _ _, h0, fun res => ?_⟩
      rw [substMatches]
      rw [show (splitOnChar (Char.ofNat 46) (pyStrip (String.mk m0)).toList).map String.mk
            = matchParts m0 from rfl, h0]
    · have hsome : ∃ c, CtxVal.lookupPath (.dict context) (matchParts m0) = some c := by
        cases hc : CtxVal.lookupPath (.dict context) (matchParts m0) with
        | none => exact absurd hc h0
        | some c => exact ⟨c, rfl⟩
      obtain ⟨c, hc⟩ := hsome
      have hrest : ∃ m ∈ rest, CtxVal.lookupPath (.dict context) (matchParts m) = none := by
        obtain ⟨m, hm, hl⟩ := h
        rcases List.mem_cons.mp hm with rfl | hm2
        · exact absurd hl h0
        · exact ⟨m, hm2, hl⟩
      obtain ⟨m, hm, hl, hres⟩ := ih hrest
      refine ⟨m, List.mem_cons_of_mem _ hm, hl, fun res => ?_⟩
      rw [substMatches]
      rw [show (splitOnChar (Char.ofNat 46) (pyStrip (String.mk m0)).toList).map String.mk
            = matchParts m0 from rfl, hc]
      exact hres _

/-- Claim C3: (1) a string containing no doubled-brace placeholders is
returned unchanged under every context; (2) for a string containing the
placeholder `(a.b)` with context `a -> (b -> "X")` the placeholder is
replaced by `"X"` exactly; (3) whenever the dotted path of any placeholder is
missing from the context (or traversal reaches a non-mapping), the resolver
raises a `ConfigurationError` naming the unresolved path and the available
top-level keys — a partially-substituted string is never returned. -/
theorem C3_template_resolution :
    (∀ (value : String) (context : List (String × CtxVal)),
      findTemplateVars value.toList = [] →
      resolve_template_variables value context = .ok value) ∧
    (resolve_template_variables "x\x7b\x7ba.b\x7d\x7dy" [("a", .dict [("b", .str "X")])]
      = .ok "xXy") ∧
    (∀ (value : String) (context : List (String × CtxVal)),
      (∃ m ∈ findTemplateVars value.toList,
        CtxVal.lookupPath (.dict context) (matchParts m) = none) →
      ∃ m ∈ findTemplateVars value.toList,
        CtxVal.lookupPath (.dict context) (matchParts m) = none ∧
        resolve_template_variables value context =
          .error (templateVarNotFoundMessage (String.mk m) context)) := by
  refine ⟨?_, by decide, ?_⟩
  · intro v ctx h
    rw [resolve_template_variables, h]
    rfl
  · intro v ctx h
    obtain ⟨m, hm, hl, hres⟩ := substMatches_error_of_exists ctx _ h
    exact ⟨m, hm, hl, hres v⟩

/-- Witness for `C3_template_resolution` at concrete inputs: a
placeholder-free string, and a placeholder whose path is missing from an
empty context. -/
theorem C3_witness :
    resolve_template_variables "plain" [] = .ok "plain" ∧
    (∃ m ∈ findTemplateVars "\x7b\x7ba.b\x7d\x7d".toList,
      CtxVal.lookupPath (.dict []) (matchParts m) = none ∧
      resolve_template_variables "\x7b\x7ba.b\x7d\x7d" [] =
        .error (templateVarNotFoundMessage (String.mk m) [])) :=
  ⟨C3_template_resolution.1 "plain" [] (by decide),
   C3_template_resolution.2.2 "\x7b\x7ba.b\x7d\x7d" [] (by decide)⟩

lemma containsKey_dictSet (d : List (String × String)) (k v k2 : String) :
    containsKey (dictSet d k v) k2 = true ↔ (k2 = k ∨ containsKey d k2 = true) := by
  simp only [containsKey, dictSet, List.any_eq_true, decide_eq_true_eq]
  by_cases h : ∃ kv ∈ d, kv.1 = k
  · rw [if_pos h]
    constructor
    · rintro ⟨kv, hkv, hc⟩
      obtain ⟨kv0, h0mem, h0⟩ := List.mem_map.mp hkv
      by_cases hx : kv0.1 = k
      · rw [if_pos hx] at h0
        subst h0
        exact Or.inl hc.symm
      · rw [if_neg hx] at h0
        subst h0
        exact Or.inr ⟨kv0, h0mem, hc⟩
    · rintro (rfl | ⟨kv, hkv, hc⟩)
      · obtain ⟨kv0, h0mem, h0⟩ := h
        exact ⟨(k2, v), List.mem_map.mpr ⟨kv0, h0mem, by rw [if_pos h0]⟩, rfl⟩
      · by_cases hx : kv.1 = k
        · exact ⟨(k, v), List.mem_map.mpr ⟨kv, hkv, by rw [if_pos hx]⟩, hx.symm.trans hc⟩
        · exact ⟨kv, List.mem_map.mpr ⟨kv, hkv, by rw [if_neg hx]⟩, hc⟩
  · rw [if_neg h]
    constructor
    · rintro ⟨kv, hkv, hc⟩
      rcases List.mem_append.mp hkv with hkv2 | hkv2
      · exact Or.inr ⟨kv, hkv2, hc⟩
      · rw [List.mem_singleton.mp hkv2] at hc
        exact Or.inl hc.symm
    · rintro (rfl | ⟨kv, hkv, hc⟩)
      · exact ⟨(k2, v), List.mem_append.mpr (Or.inr (List.mem_singleton.mpr rfl)), rfl⟩
      · exact ⟨kv, List.mem_append.mpr (Or.inl hkv), hc⟩

lemma containsKey_addFileData (s : List (String × String)) (data : List (String × YVal))
    (k : String) :
    containsKey (addFileData s data) k = true ↔
      (containsKey s k = true ∨
        (k ∉ reservedMetadataKeys ∧ ∃ p ∈ data, p.1 = k)) := by
  induction data generalizing s with
  | nil => simp [addFileData]
  | cons p rest ih =>
    obtain ⟨key, value⟩ := p
    rw [addFileData]
    by_cases hm : reservedMetadataKeys.contains key = true
    · rw [if_pos hm, ih]
      have hkey : key ∈ reservedMetadataKeys := List.elem_iff.mp hm
      constructor
      · rintro (hc | ⟨hnm, p, hp, hpk⟩)
        · exact Or.inl hc
        · exact Or.inr ⟨hnm, p, List.mem_cons_of_mem _ hp, hpk⟩
      · rintro (hc | ⟨hnm, p, hp, hpk⟩)
        · exact Or.inl hc
        · rcases List.mem_cons.mp hp with rfl | hp2
          · have hknotin : key ∉ reservedMetadataKeys := by
              have hke : key = k := hpk
              rw [hke]
              exact hnm
            exact absurd hkey hknotin
          · exact Or.inr ⟨hnm, p, hp2, hpk⟩
    · rw [if_neg hm, ih, containsKey_dictSet]
      have hkey : key ∉ reservedMetadataKeys := fun hc => hm (List.elem_iff.mpr hc)
      constructor
      · rintro ((hke | hc) | ⟨hnm, p, hp, hpk⟩)
        · have hknm : k ∉ reservedMetadataKeys := by
            rw [hke]
            exact hkey
          exact Or.inr ⟨hknm, (key, value), List.mem_cons_self _ _, hke.symm⟩
        · exact Or.inl hc
        · exact Or.inr ⟨hnm, p, List.mem_cons_of_mem _ hp, hpk⟩
      · rintro (hc | ⟨hnm, p, hp, hpk⟩)
        · exact Or.inl (Or.inr hc)
        · rcases List.mem_cons.mp hp with rfl | hp2
          · exact Or.inl (Or.inl hpk.symm)
          · exact Or.inr ⟨hnm, p, hp2, hpk⟩

lemma containsKey_addLayerFiles (L M : String) (s : List (String × String))
    (files : List VaultFile) (k : String) :
    containsKey (addLayerFiles L M s files) k = true ↔
      (containsKey s k = true ∨
        ∃ f ∈ files, can_access_secret L M f.data = true ∧
          k ∉ reservedMetadataKeys ∧ ∃ p ∈ f.data, p.1 = k) := by
  induction files generalizing s with
  | nil => simp [addLayerFiles]
  | cons f rest ih =>
    rw [addLayerFiles]
    by_cases ha : can_access_secret L M f.data = true
    · rw [if_pos ha, ih, containsKey_addFileData]
      simp only [List.mem_cons]
      constructor
      · rintro ((hc | ⟨hnm, hp⟩) | ⟨g, hg, hga, hnm, hp⟩)
        · exact Or.inl hc
        · exact Or.inr ⟨f, Or.inl rfl, ha, hnm, hp⟩
        · exact Or.inr ⟨g, Or.inr hg, hga, hnm, hp⟩
      · rintro (hc | ⟨g, rfl | hg, hga, hnm, hp⟩)
        · exact Or.inl (Or.inl hc)
        · exact Or.inl (Or.inr ⟨hnm, hp⟩)
        · exact Or.inr ⟨g, hg, hga, hnm, hp⟩
    · rw [if_neg ha, ih]
      simp only [List.mem_cons]
      constructor
      · rintro (hc | ⟨g, hg, hga, hnm, hp⟩)
        · exact Or.inl hc
        · exact Or.inr ⟨g, Or.inr hg, hga, hnm, hp⟩
      · rintro (hc | ⟨g, rfl | hg, hga, hnm, hp⟩)
        · exact Or.inl hc
        · exact absurd hga ha
        · exact Or.inr ⟨g, hg, hga, hnm, hp⟩

lemma containsKey_addLayers (L : String) (d : EnvVaultDir) (s : List (String × String))
    (dirs : List String) (k : String) :
    containsKey (addLayers L d s dirs) k = true ↔
      (containsKey s k = true ∨
        ∃ M ∈ dirs, ∃ files, d.layers.lookup M = some files ∧
          ∃ f ∈ files, can_access_secret L M f.data = true ∧
            k ∉ reservedMetadataKeys ∧ ∃ p ∈ f.data, p.1 = k) := by
  induction dirs generalizing s with
  | nil => simp [addLayers]
  | cons M rest ih =>
    rw [addLayers]
    cases hl : d.layers.lookup M with
    | none =>
      rw [ih]
      simp only [List.mem_cons]
      constructor
      · rintro (hc | ⟨N, hN, files, hfiles, hrest⟩)
        · exact Or.inl hc
        · exact Or.inr ⟨N, Or.inr hN, files, hfiles, hrest⟩
      · rintro (hc | ⟨N, rfl | hN, files, hfiles, hrest⟩)
        · exact Or.inl hc
        · rw [hl] at hfiles
          cases hfiles
        · exact Or.inr ⟨N, hN, files, hfiles, hrest⟩
    | some files =>
      rw [ih, containsKey_addLayerFiles]
      simp only [List.mem_cons]
      constructor
      · rintro ((hc | ⟨f, hf, hrest⟩) | ⟨N, hN, files2, hfiles2, hrest⟩)
        · exact Or.inl hc
        · exact Or.inr ⟨M, Or.inl rfl, files, hl, f, hf, hrest⟩
        · exact Or.inr ⟨N, Or.inr hN, files2, hfiles2, hrest⟩
      · rintro (hc | ⟨N, rfl | hN, files2, hfiles2, hrest⟩)
        · exact Or.inl (Or.inl hc)
        · rw [hl] at hfiles2
          cases hfiles2
          exact Or.inl (Or.inr hrest)
        · exact Or.inr ⟨N, hN, files2, hfiles2, hrest⟩

lemma can_access_secret_iff (L M : String) (data : List (String × YVal))
    (hwf : sharedWithWellFormed data = true) :
    can_access_secret L M data = true ↔
      (L = M ∨ ∃ sl, data.lookup "shared_with" = some (.strList sl) ∧ L ∈ sl) := by
  rw [can_access_secret]
  by_cases hLM : L = M
  · simp [hLM]
  · rw [if_neg hLM]
    rw [sharedWithWellFormed] at hwf
    cases hl : data.lookup "shared_with" with
    | none => simp [hLM, hl]
    | some v =>
      rw [hl] at hwf
      cases v with
      | str s => simp at hwf
      | strList sl =>
        simp only [YVal.pyContains, hLM, false_or]
        constructor
        · intro hc
          exact ⟨sl, rfl, List.elem_iff.mp hc⟩
        · rintro ⟨sl2, heq, hmem⟩
          cases heq
          exact List.elem_iff.mpr hmem

/-- Claim C1: for a requesting layer `L`, a key appears in
`load_secrets_from_vault L` exactly when some vault file, owned by a layer
directory `M` under the environment vault directory, is accessible to `L` —
same layer, or `L` listed in the `shared_with` list of the file — and holds
that key as a non-metadata key; consequently, when the `shared_with` of a file is
absent or empty and `L` differs from `M`, that file contributes nothing, and
the five reserved metadata keys never appear in the result.  The hypothesis
states the shape the specification ascribes to `shared_with`: absent or a
list of strings. -/
theorem C1_cross_layer_access (L : String) (d : EnvVaultDir) (k : String)
    (hwf : ∀ M ∈ layerDirNames, ∀ f ∈ (d.layers.lookup M).getD [],
      sharedWithWellFormed f.data = true) :
    (containsKey (load_secrets_from_vault L (some d)) k = true ↔
      ∃ M ∈ layerDirNames, ∃ files, d.layers.lookup M = some files ∧
        ∃ f ∈ files,
          (L = M ∨ ∃ sl, f.data.lookup "shared_with" = some (.strList sl) ∧ L ∈ sl) ∧
          k ∉ reservedMetadataKeys ∧ ∃ p ∈ f.data, p.1 = k) ∧
    (k ∈ reservedMetadataKeys →
      containsKey (load_secrets_from_vault L (some d)) k = false) := by
  have hload : load_secrets_from_vault L (some d) = addLayers L d [] layerDirNames := rfl
  constructor
  · rw [hload, containsKey_addLayers]
    have hbase : containsKey [] k = false := rfl
    rw [hbase]
    simp only [Bool.false_eq_true, false_or]
    constructor
    · rintro ⟨M, hM, files, hfiles, f, hf, hacc, hnm, hp⟩
      have hwfd : sharedWithWellFormed f.data = true := by
        refine hwf M hM f ?_
        rw [hfiles]
        exact hf
      exact ⟨M, hM, files, hfiles, f, hf,
        (can_access_secret_iff L M f.data hwfd).mp hacc, hnm, hp⟩
    · rintro ⟨M, hM, files, hfiles, f, hf, hacc, hnm, hp⟩
      have hwfd : sharedWithWellFormed f.data = true := by
        refine hwf M hM f ?_
        rw [hfiles]
        exact hf
      exact ⟨M, hM, files, hfiles, f, hf,
        (can_access_secret_iff L M f.data hwfd).mpr hacc, hnm, hp⟩
  · intro hk
    by_cases hck : containsKey (load_secrets_from_vault L (some d)) k = true
    · exfalso
      rw [hload, containsKey_addLayers] at hck
      rcases hck with hfalse | ⟨M, hM, files, hfiles, f, hf, hacc, hnm, hp⟩
      · exact absurd hfalse (by simp [containsKey])
      · exact hnm hk
    · exact Bool.eq_false_iff.mpr hck

/-- Witness for `C1_cross_layer_access`: a `layer1` file shared with
`layer0` is visible to `layer0`, and the `shared_with` metadata key itself
never appears in the result. -/
theorem C1_witness :
    containsKey
      (load_secrets_from_vault "layer0"
        (some ⟨[("layer1",
          [⟨[("shared_with", .strList ["layer0"]), ("redis-host", .str "h")]⟩])]⟩))
      "redis-host" = true ∧
    containsKey
      (load_secrets_from_vault "layer0"
        (some ⟨[("layer1",
          [⟨[("shared_with", .strList ["layer0"]), ("redis-host", .str "h")]⟩])]⟩))
      "shared_with" = false :=
  ⟨(C1_cross_layer_access "layer0" _ "redis-host" (by decide)).1.mpr
    ⟨"layer1", by decide,
      [⟨[("shared_with", .strList ["layer0"]), ("redis-host", .str "h")]⟩], rfl,
      ⟨[("shared_with", .strList ["layer0"]), ("redis-host", .str "h")]⟩,
      List.mem_singleton.mpr rfl,
      Or.inr ⟨["layer0"], rfl, by decide⟩, by decide,
      ("redis-host", .str "h"), by decide, rfl⟩,
   (C1_cross_layer_access "layer0" _ "shared_with" (by decide)).2 (by decide)⟩

lemma addLayers_congr (L : String) (d1 d2 : EnvVaultDir) (dirs : List String)
    (h : ∀ M ∈ dirs, (d1.layers.lookup M).getD [] = (d2.layers.lookup M).getD []) :
    ∀ s, addLayers L d1 s dirs = addLayers L d2 s dirs := by
  induction dirs with
  | nil => intro s; rfl
  | cons M rest ih =>
    intro s
    have hM := h M (List.mem_cons_self _ _)
    have hrest : ∀ N ∈ rest, (d1.layers.lookup N).getD [] = (d2.layers.lookup N).getD [] :=
      fun N hN => h N (List.mem_cons_of_mem _ hN)
    rw [addLayers, addLayers]
    have hstep :
        (match d1.layers.lookup M with
         | none => s
         | some files => addLayerFiles L M s files)
        = (match d2.layers.lookup M with
           | none => s
           | some files => addLayerFiles L M s files) := by
      cases h1 : d1.layers.lookup M with
      | none =>
        cases h2 : d2.layers.lookup M with
        | none => rfl
        | some f2 =>
          rw [h1, h2] at hM
          simp only [Option.getD_none, Option.getD_some] at hM
          rw [← hM]
          rfl
      | some f1 =>
        cases h2 : d2.layers.lookup M with
        | none =>
          rw [h1, h2] at hM
          simp only [Option.getD_none, Option.getD_some] at hM
          rw [hM]
          rfl
        | some f2 =>
          rw [h1, h2] at hM
          simp only [Option.getD_some] at hM
          rw [hM]
    rw [hstep]
    exact ih hrest _

/-- Claim C10: `load_secrets_from_vault` never fails on missing directories —
with no environment vault directory it returns the empty mapping, and a layer
subdirectory that does not exist behaves exactly like one that exists with no
files (so absent subdirectories are silently skipped; the embedding is a
total function, so no exception is raised). -/
theorem C10_missing_directories :
    (∀ L : String, load_secrets_from_vault L none = []) ∧
    (∀ (L : String) (d1 d2 : EnvVaultDir),
      (∀ M ∈ layerDirNames, (d1.layers.lookup M).getD [] = (d2.layers.lookup M).getD []) →
      load_secrets_from_vault L (some d1) = load_secrets_from_vault L (some d2)) := by
  constructor
  · intro L
    rfl
  · intro L d1 d2 h
    exact addLayers_congr L d1 d2 layerDirNames h []

/-- Witness for `C10_missing_directories`: a vault with only a `layer1`
directory loads the same secrets as one that additionally has an empty
`layer2` directory. -/
theorem C10_witness :
    load_secrets_from_vault "layer1"
      (some ⟨[("layer1", [⟨[("redis-host", .str "h")]⟩])]⟩) =
    load_secrets_from_vault "layer1"
      (some ⟨[("layer1", [⟨[("redis-host", .str "h")]⟩]), ("layer2", [])]⟩) :=
  C10_missing_directories.2 "layer1" _ _ (by decide)

end KStackLib
